import Mathlib

/-!
Verification development for the `vibe-security` example repository.

The file shallowly embeds the JavaScript example code (rate limiter, CSRF
wrapper, certificate pinning helper, permission history, XOR storage cipher,
module import graph) as executable Lean definitions and proves or refutes the
frozen specification claims about them.

Conventions used throughout:
* JS strings appear either as Lean `String` (when only compared for equality)
  or as lists of UTF-16 code units (`List Nat`) when per-character arithmetic
  matters (the XOR cipher).
* Machine time (`Date.now()`) is an explicit `now : Nat` parameter
  (milliseconds).
* Fallible JS code is embedded with `Except`; a thrown JS error is an
  `Except.error` value.
* Mutable state (the lru-cache of the rate limiter, AsyncStorage) is passed
  explicitly: an operation takes the state and returns the new state.
-/

namespace RateLimit

/-! ## Rate limiter (`examples/nextjs/utils/rate-limit.js`)

`rateLimit(options)` builds an `lru-cache` keyed by token, with per-entry
time-to-live `interval` and capacity `uniqueTokenPerInterval`, and returns an
object of closures (`check`, `middleware`, `withRateLimit`, `getStatus`,
`reset`) that all share that cache.

The third-party cache is modelled as a recency-ordered association list,
most-recently-used first.  `set` always (re)starts the entry's TTL clock, as
the library does for a cache constructed with a default `ttl`; an entry whose
TTL has elapsed is invisible to `get`.  When an insertion overflows the
capacity the least-recently-used entries are evicted.  The library exposes
`get`, `set`, `has`, `delete` and `getRemainingTTL` — it has **no** `getTtl`
method, although `check` and `getStatus` both call one; that missing method
is part of the model below. -/

/-- One entry of the token cache: the request count stored for a token and the
absolute time (ms) at which the entry expires. -/
structure CacheEntry where
  count : Nat
  expiresAt : Nat
deriving Repr, DecidableEq

/-- The token cache state: association list from token to entry, most recently
used first. -/
abbrev CacheState := List (String × CacheEntry)

/-- The `options` record of `rateLimit(options)` with the source defaults. -/
structure Options where
  interval : Nat := 60000
  maxRequests : Nat := 10
  uniqueTokenPerInterval : Nat := 500
deriving Repr, DecidableEq

/-- `tokenCache.get(token)`: the stored count, or `none` if the token is absent
or its TTL has elapsed. -/
def cacheGet (s : CacheState) (token : String) (now : Nat) : Option Nat :=
  match s.lookup token with
  | some e => if now < e.expiresAt then some e.count else none
  | none => none

/-- The result of the property lookup `tokenCache.getTtl`: the imported
`lru-cache` (v7+, named `LRUCache` export, `max`/`ttl` options) has no
`getTtl` method — its TTL query is `getRemainingTTL(key)` — so the lookup
yields `undefined` (`none` here), and calling it throws
`TypeError: tokenCache.getTtl is not a function`.  Were such a method
present, it would have some cache-querying semantics of the function type
below. -/
def lruGetTtl : Option (CacheState → String → Nat → Option Nat) := none

/-- `tokenCache.set(token, v)`: insert or update the token at the
most-recently-used position, restarting its TTL; evict from the
least-recently-used end beyond the capacity `max`. -/
def cacheSet (s : CacheState) (token : String) (e : CacheEntry) (max : Nat) :
    CacheState :=
  ((token, e) :: s.filter (fun p => !(p.1 == token))).take max

/-- The effective limit of a `check(limit, token)` call: JS `limit ||
maxRequests`, so a missing argument or the falsy `0` both fall back to the
configured `maxRequests`. -/
def effectiveLimit (limit : Option Nat) (cfg : Options) : Nat :=
  match limit with
  | some l => if l = 0 then cfg.maxRequests else l
  | none => cfg.maxRequests

/-- The `rateLimitInfo` object built by `check`: `remaining` is
`Math.max(0, maxRequestsForToken - tokenCount)`, an integer clamped at zero;
`reset` is `Math.ceil((ttl - currentTime) / 1000)` in seconds. -/
structure RateLimitInfo where
  limit : Nat
  remaining : Int
  reset : Nat
deriving Repr, DecidableEq

/-- The error thrown on `tokenCount > maxRequestsForToken`: carries
`status = 429` and the rate-limit info. -/
structure RateLimitError where
  status : Nat
  rateLimit : RateLimitInfo
deriving Repr, DecidableEq

/-- The success value returned by `check`. -/
structure CheckResult where
  success : Bool
  info : RateLimitInfo
deriving Repr, DecidableEq

/-- An error thrown out of `check`: the TypeError from the missing `getTtl`
method (which carries no `status` field), or the intended 429 rate-limit
error — which the function as written can never construct. -/
inductive CheckError where
  | typeError (message : String)
  | rateLimitExceeded (e : RateLimitError)
deriving Repr, DecidableEq

/-- `check(limit, token)` (lines 252-285 of the rate limiter) as the source
executes: read the current count and add one (line 256), then evaluate
`tokenCache.getTtl(token)` (line 260) — a call of `undefined`, which throws
the TypeError, so the subsequent `tokenCache.set` (line 264) and the limit
test never run and the cache is left unchanged.  The second match arm
translates the remainder of the function (lines 261-284), reachable only if
the cache had a `getTtl` method. -/
def check (cfg : Options) (limit : Option Nat) (token : String) (now : Nat)
    (s : CacheState) : Except CheckError CheckResult × CacheState :=
  let maxRequestsForToken := effectiveLimit limit cfg
  let tokenCount := (cacheGet s token now).getD 0 + 1
  match lruGetTtl with
  | none => (.error (.typeError ("tokenCache.getTtl is not a function")), s)
  | some getTtl =>
    let ttl := (getTtl s token now).getD (now + cfg.interval)
    let reset := (ttl - now + 999) / 1000
    let s' := cacheSet s token ⟨tokenCount, now + cfg.interval⟩
      cfg.uniqueTokenPerInterval
    let info : RateLimitInfo :=
      ⟨maxRequestsForToken, max 0 ((maxRequestsForToken : Int) - tokenCount), reset⟩
    if maxRequestsForToken < tokenCount then
      (.error (.rateLimitExceeded ⟨429, info⟩), s')
    else
      (.ok ⟨true, info⟩, s')

/-- Whether the `check` call returned normally (rather than throwing). -/
def rlIsOk : Except CheckError CheckResult → Bool
  | .ok _ => true
  | .error _ => false

/-- The status object `getStatus(token, limit)` is written to build (lines
426-431). -/
structure StatusInfo where
  limit : Nat
  remaining : Int
  reset : Nat
  exceeded : Bool
deriving Repr, DecidableEq

/-- `getStatus(token, limit)` (lines 420-432) as the source executes: the
count read succeeds, but `tokenCache.getTtl(token)` (line 423) throws the
TypeError before the status object is built, so the function never returns
a status.  The second arm translates the rest (lines 424-431). -/
def getStatus (cfg : Options) (token : String) (limit : Nat) (now : Nat)
    (s : CacheState) : Except CheckError StatusInfo :=
  let tokenCount := (cacheGet s token now).getD 0
  match lruGetTtl with
  | none => .error (.typeError ("tokenCache.getTtl is not a function"))
  | some getTtl =>
    let ttl := (getTtl s token now).getD (now + cfg.interval)
    .ok { limit := limit
          remaining := max 0 ((limit : Int) - tokenCount)
          reset := (ttl - now + 999) / 1000
          exceeded := decide (limit ≤ tokenCount) }

/-- The options used by the default limiter instances of the file. -/
def defaultOptions : Options := { interval := 60000, maxRequests := 10, uniqueTokenPerInterval := 500 }

end RateLimit

namespace RateLimit

/-- The cache state after a sequence of `check` calls (each given by its
`limit` argument, token and call time). -/
def runChecks (cfg : Options) (calls : List (Option Nat × String × Nat))
    (s : CacheState) : CacheState :=
  calls.foldl (fun st c => (check cfg c.1 c.2.1 c.2.2 st).2) s

/-- C8 (code bug): every `check(limit, token)` call throws the TypeError
from the nonexistent `tokenCache.getTtl` before `tokenCache.set` runs, so —
contrary to the claim and to the function's own documentation (`@throws If
rate limit is exceeded`, `@returns ... remaining`) — the stored count is
never incremented (the cache is unchanged), the 429 error is never thrown,
and no `remaining` is ever reported. -/
theorem check_type_errors_before_recording (cfg : Options) (limit : Option Nat)
    (token : String) (now : Nat) (s : CacheState) :
    (check cfg limit token now s).1
        = .error (.typeError ("tokenCache.getTtl is not a function")) ∧
    (check cfg limit token now s).2 = s ∧
    cacheGet (check cfg limit token now s).2 token now = cacheGet s token now :=
  ⟨rfl, rfl, rfl⟩

/-- C4: the result of `getStatus(token, limit)` is unaffected by prior
`check` calls — for the same token or any other.  This holds of the program
as written for a degenerate reason: both operations call the nonexistent
`tokenCache.getTtl`, so every `check` throws before its `tokenCache.set`
(leaving the shared token cache unwritten) and every `getStatus` throws the
same TypeError before a status object is built.  The cache object is
genuinely shared between the closures, but no completed `check` ever writes
it. -/
theorem getStatus_unaffected_by_prior_checks (cfg : Options)
    (calls : List (Option Nat × String × Nat)) (token : String) (lim : Nat)
    (now : Nat) (s : CacheState) :
    runChecks cfg calls s = s ∧
    getStatus cfg token lim now (runChecks cfg calls s)
      = getStatus cfg token lim now s ∧
    getStatus cfg token lim now s
      = .error (.typeError ("tokenCache.getTtl is not a function")) := by
  have h : ∀ s' : CacheState, runChecks cfg calls s' = s' := by
    induction calls with
    | nil => intro s'; rfl
    | cons c cs ih =>
      intro s'
      calc runChecks cfg (c :: cs) s'
          = runChecks cfg cs ((check cfg c.1 c.2.1 c.2.2 s').2) := rfl
        _ = runChecks cfg cs s' := rfl
        _ = s' := ih s'
  exact ⟨h s, by rw [h s], rfl⟩

end RateLimit

namespace RateLimit

/-! ### `withRateLimit` (lines 358-412)

`withRateLimit` is an arrow-function property of the object literal returned
by `rateLimit`.  The file is an ES module, so top-level `this` is `undefined`;
`rateLimit` itself is invoked as a plain function call in strict mode, so its
`this` is `undefined` too, and the arrow functions of the returned object
capture that binding.  The embedding records this binding explicitly: the step
`await this.check(limit, token)` reads the property `check` of `undefined`,
which throws a `TypeError` — an error object with no `status` field. -/

/-- The `this` binding captured by the arrow functions of the object literal
returned by `rateLimit` (ES module top level, strict-mode plain call):
`undefined`. -/
def rateLimitModuleThis : Option Unit := none

/-- An error caught by the `catch` block of the wrapped handler: either the
`TypeError` from reading `check` off `undefined` (no `status` field), or a
thrown rate-limit error. -/
inductive WrapError where
  | typeError
  | rateLimited (e : RateLimitError)
deriving Repr, DecidableEq

/-- The `error.status` read performed by the `catch` block. -/
def wrapErrorStatus : WrapError → Option Nat
  | .typeError => none
  | .rateLimited e => some e.status

/-- The JS step `await this.check(limit, token)` inside `withRateLimit`: with
`this = undefined` it throws a `TypeError` before the rate limiter runs; only
if `this` were the limiter object would it perform `check`. -/
def thisCheck (cfg : Options) (limit : Option Nat) (token : String) (now : Nat)
    (s : CacheState) : Except WrapError CheckResult × CacheState :=
  match rateLimitModuleThis with
  | none => (.error .typeError, s)
  | some _ =>
    match check cfg limit token now s with
    | (.ok r, s') => (.ok r, s')
    | (.error (.rateLimitExceeded e), s') => (.error (.rateLimited e), s')
    | (.error (.typeError _), s') => (.error .typeError, s')

/-- An incoming API request, as consulted by the default `keyGenerator`. -/
structure Request where
  xForwardedFor : Option String := none
  ip : Option String := none

/-- The response assembled through the `res` object: final status, body tag
and the headers set via `res.setHeader`. -/
structure ApiResponse where
  status : Nat
  body : String
  headers : List (String × String)
deriving Repr, DecidableEq

/-- The default `keyGenerator`:
`req.headers['x-forwarded-for'] || req.ip || 'anonymous'`. -/
def defaultKeyGenerator (req : Request) : String :=
  (req.xForwardedFor.orElse (fun _ => req.ip)).getD ("anonymous")

/-- The wrapped handler returned by `withRateLimit(handler, options)`, with
the default `keyGenerator` and the `limit` and `headers` options explicit.
The `Bool` of the result records whether the original `handler` was invoked.
The 429 branch of the `catch` block is embedded as written; it is unreachable,
because `thisCheck` only ever throws the `TypeError` (whose `status` is not
429). -/
def withRateLimit (cfg : Options) (handler : Request → ApiResponse)
    (limit : Option Nat) (headers : Bool) (req : Request) (now : Nat)
    (s : CacheState) : (ApiResponse × Bool) × CacheState :=
  let token := defaultKeyGenerator req
  match thisCheck cfg limit token now s with
  | (.ok result, s') =>
    let hs := if headers then
        [("X-RateLimit-Limit", toString result.info.limit),
         ("X-RateLimit-Remaining", toString result.info.remaining),
         ("X-RateLimit-Reset", toString result.info.reset)]
      else []
    let r := handler req
    (({ r with headers := hs ++ r.headers }, true), s')
  | (.error e, s') =>
    match wrapErrorStatus e with
    | some 429 =>
      let info := match e with
        | .rateLimited err => some err.rateLimit
        | .typeError => none
      let hs := match info, headers with
        | some i, true =>
          [("X-RateLimit-Limit", toString i.limit),
           ("X-RateLimit-Remaining", toString (0 : Nat)),
           ("X-RateLimit-Reset", toString i.reset),
           ("Retry-After", toString i.reset)]
        | _, _ => []
      ((⟨429, "Too Many Requests", hs⟩, false), s')
    | _ =>
      ((⟨500, "Internal Server Error", []⟩, false), s')

/-- C1 (code bug): because `this` is `undefined` where the arrow functions of
`rateLimit` are defined, `await this.check(limit, token)` always throws a
`TypeError`, so the wrapped handler returned by `withRateLimit` responds 500
to every request, never invokes the original handler, and never touches the
token cache — contradicting the documented behaviour (handler invoked under
the limit, 429 beyond it). -/
theorem withRateLimit_always_responds_500 (cfg : Options)
    (handler : Request → ApiResponse) (limit : Option Nat) (headers : Bool)
    (req : Request) (now : Nat) (s : CacheState) :
    (withRateLimit cfg handler limit headers req now s).1.1.status = 500 ∧
    (withRateLimit cfg handler limit headers req now s).1.2 = false ∧
    (withRateLimit cfg handler limit headers req now s).2 = s := by
  refine ⟨rfl, rfl, rfl⟩

end RateLimit

namespace Csrf

/-! ## CSRF protection (`examples/nextjs/utils/csrf-protection.js`)

`withCsrfApiRoute(handler)` first builds
`withSession = withIronSessionApiRoute(handler, sessionOptions)` and then
returns an async wrapper that awaits `csrfMiddleware(req, res)` and, on
success, returns `withSession(req, res)`; a rejection with
`error.code === 'CSRF_TOKEN_INVALID'` yields a 403, any other rejection a 500.

The two third-party pieces are parameters of the embedding: `ironSession` is
the `withIronSessionApiRoute` wrapper (a function transformer) and
`csrfMiddleware` either passes or rejects with an error carrying a `code`. -/

/-- An error rejected by the `next-csrf` middleware; the wrapper only reads
its `code`. -/
structure CsrfError where
  code : String
deriving Repr, DecidableEq

/-- Request seen by an API route; opaque to the wrapper. -/
structure Request where
  id : Nat
deriving Repr, DecidableEq

/-- Response produced through `res.status(...).json(...)`. -/
structure ApiResponse where
  status : Nat
  error : String
deriving Repr, DecidableEq

/-- `withCsrfApiRoute(handler)` applied to a request.  The `Bool` of the
result records whether the session-wrapped handler was invoked. -/
def withCsrfApiRoute (ironSession : (Request → ApiResponse) → Request → ApiResponse)
    (csrfMiddleware : Request → Except CsrfError Unit)
    (handler : Request → ApiResponse) (req : Request) : ApiResponse × Bool :=
  let withSession := ironSession handler
  match csrfMiddleware req with
  | .ok _ => (withSession req, true)
  | .error e =>
    if e.code = "CSRF_TOKEN_INVALID" then
      (⟨403, "Invalid CSRF token"⟩, false)
    else
      (⟨500, "Internal server error"⟩, false)

/-- C6: for every wrapped handler, a passing CSRF validation invokes the
session-wrapped handler and returns its result; a rejection whose code is
`CSRF_TOKEN_INVALID` yields status 403 with error `Invalid CSRF token`; any
other rejection yields a 500; and in neither rejection case is the wrapped
handler invoked. -/
theorem withCsrfApiRoute_spec
    (ironSession : (Request → ApiResponse) → Request → ApiResponse)
    (csrfMiddleware : Request → Except CsrfError Unit)
    (handler : Request → ApiResponse) (req : Request) (e : CsrfError) :
    (csrfMiddleware req = .ok () →
      withCsrfApiRoute ironSession csrfMiddleware handler req
        = (ironSession handler req, true)) ∧
    (csrfMiddleware req = .error e → e.code = "CSRF_TOKEN_INVALID" →
      withCsrfApiRoute ironSession csrfMiddleware handler req
        = (⟨403, "Invalid CSRF token"⟩, false)) ∧
    (csrfMiddleware req = .error e → e.code ≠ "CSRF_TOKEN_INVALID" →
      withCsrfApiRoute ironSession csrfMiddleware handler req
        = (⟨500, "Internal server error"⟩, false)) := by
  refine ⟨?_, ?_, ?_⟩
  · intro h
    simp [withCsrfApiRoute, h]
  · intro h hc
    simp [withCsrfApiRoute, h, hc]
  · intro h hc
    simp [withCsrfApiRoute, h, hc]

/-- Witness for C6: a concrete middleware rejecting with
`CSRF_TOKEN_INVALID` produces the 403 response without invoking the handler,
via the theorem. -/
theorem withCsrfApiRoute_spec_witness :
    withCsrfApiRoute (fun h => h) (fun _ => .error ⟨"CSRF_TOKEN_INVALID"⟩)
      (fun _ => ⟨200, ""⟩) ⟨0⟩ = (⟨403, "Invalid CSRF token"⟩, false) :=
  (withCsrfApiRoute_spec (fun h => h) (fun _ => .error ⟨"CSRF_TOKEN_INVALID"⟩)
    (fun _ => ⟨200, ""⟩) ⟨0⟩ ⟨"CSRF_TOKEN_INVALID"⟩).2.1 rfl rfl

end Csrf

namespace CertPinning

/-! ## Certificate pinning (`examples/react-native/utils/certificate-pinning.js`)

`secureFetch(url, options, timeout)` checks connectivity, extracts the URL's
hostname, looks the hostname up in `PINNED_DOMAINS` via `findPinnedDomain`
(direct entry first, then entries with `includeSubdomains` whose name follows
a dot-suffix of the hostname), and either forwards the request to the
third-party `sslPinningFetch` with the matched entry's `certs`, or falls back
to the plain `fetch` and returns `processResponse(response)`.

The two fetch primitives, the platform and the connectivity state are
parameters; URL hostname extraction (`new URL(url).hostname`) is delegated by
passing the hostname alongside the url. -/

/-- Character-list prefix test (used to embed `String.includes`). -/
def charsStartWith : List Char → List Char → Bool
  | _, [] => true
  | [], _ :: _ => false
  | c :: cs, d :: ds => c == d && charsStartWith cs ds

/-- Character-list substring test. -/
def charsContain : List Char → List Char → Bool
  | [], sub => charsStartWith [] sub
  | c :: t, sub => charsStartWith (c :: t) sub || charsContain t sub

/-- JS `s.includes(sub)`. -/
def strContains (s sub : String) : Bool :=
  charsContain s.toList sub.toList

/-- One entry of `PINNED_DOMAINS`. -/
structure PinConfig where
  includeSubdomains : Bool
  certs : List String
deriving Repr, DecidableEq

/-- The `PINNED_DOMAINS` configuration object (insertion order preserved, as
JS object iteration does). -/
def PINNED_DOMAINS : List (String × PinConfig) :=
  [("api.example.com",
    ⟨true, ["sha256/AAAAAAAAAAAAAAAAAAAAAAAAAAAAAAAAAAAAAAAAAAA=",
            "sha256/BBBBBBBBBBBBBBBBBBBBBBBBBBBBBBBBBBBBBBBBBBB="]⟩),
   ("auth.example.com",
    ⟨false, ["sha256/CCCCCCCCCCCCCCCCCCCCCCCCCCCCCCCCCCCCCCCCCCC="]⟩)]

/-- `findPinnedDomain(domain)` (lines 657-671): direct property lookup first,
then the first entry with `includeSubdomains` such that
`domain.endsWith('.' + pinnedDomain)`. -/
def findPinnedDomain (domains : List (String × PinConfig)) (domain : String) :
    Option PinConfig :=
  match domains.lookup domain with
  | some cfg => some cfg
  | none =>
    (domains.find? (fun p => p.2.includeSubdomains && domain.endsWith ("." ++ p.1))).map
      (fun p => p.2)

/-- The claim's wording of "has a pinning configuration": a direct entry in
`PINNED_DOMAINS`, or a subdomain of an entry with `includeSubdomains`
enabled. -/
def hasPinnedConfig (domains : List (String × PinConfig)) (domain : String) :
    Bool :=
  domains.any (fun p => domain == p.1) ||
    domains.any (fun p => p.2.includeSubdomains && domain.endsWith ("." ++ p.1))

/-- Options passed to the plain `fetch` fallback. -/
structure FetchOptions where
  method : Option String := none
  headers : List (String × String) := []
  body : Option String := none
deriving Repr, DecidableEq

/-- Options assembled for the third-party `sslPinningFetch`. -/
structure PinningOptions where
  method : String
  timeoutInterval : Nat
  headers : List (String × String)
  body : Option String
  certs : List String
  trustkitIncludeSubdomains : Option Bool
deriving Repr, DecidableEq

/-- The pinning options built by `secureFetch` for a matched configuration:
`options.method || 'GET'`, the caller's headers and body, the matched entry's
certificate hashes, and (via `Platform.select`) the TrustKit subdomain flag on
Android only. -/
def mkPinningOptions (platformIsAndroid : Bool) (options : FetchOptions)
    (timeout : Nat) (cfg : PinConfig) : PinningOptions :=
  { method := options.method.getD ("GET")
    timeoutInterval := timeout
    headers := options.headers
    body := options.body
    certs := cfg.certs
    trustkitIncludeSubdomains :=
      if platformIsAndroid then some cfg.includeSubdomains else none }

/-- A plain `fetch` response as consumed by `processResponse`: the
content-type header and the body under its three readings. -/
structure PlainResponse where
  contentType : Option String
  jsonBody : String
  textBody : String
  blobBody : String
deriving Repr, DecidableEq

/-- `processResponse(response)` (lines 677-689): branch on the content type. -/
def processResponse (r : PlainResponse) : String :=
  let ct := r.contentType.getD ("")
  if strContains ct ("application/json") then r.jsonBody
  else if strContains ct ("text/") then r.textBody
  else r.blobBody

/-- The `catch` block of `secureFetch` (lines 636-650): certificate-related
messages are rethrown as the generic security error, everything else is
rethrown as-is. -/
def mapCatch (e : String) : Except String String :=
  if strContains e ("certificate") || strContains e ("SSL")
      || strContains e ("pinning") then
    .error ("Security error: Server certificate validation failed")
  else
    .error e

/-- Which underlying request `secureFetch` issued. -/
inductive FetchRoute where
  | pinned (url : String) (opts : PinningOptions)
  | plain (url : String) (opts : FetchOptions) (timeout : Nat)
  | noRequest
deriving Repr, DecidableEq

/-- `secureFetch(url, options, timeout)` (lines 588-651), also reporting the
route taken. -/
def secureFetch (netConnected platformIsAndroid : Bool)
    (plainFetch : String → FetchOptions → Nat → Except String PlainResponse)
    (sslPinningFetch : String → PinningOptions → Except String String)
    (url urlHostname : String) (options : FetchOptions) (timeout : Nat) :
    Except String String × FetchRoute :=
  if !netConnected then
    (mapCatch ("No internet connection"), .noRequest)
  else
    match findPinnedDomain PINNED_DOMAINS urlHostname with
    | none =>
      match plainFetch url options timeout with
      | .ok r => (.ok (processResponse r), .plain url options timeout)
      | .error e => (mapCatch e, .plain url options timeout)
    | some cfg =>
      let popts := mkPinningOptions platformIsAndroid options timeout cfg
      match sslPinningFetch url popts with
      | .ok r => (.ok r, .pinned url popts)
      | .error e => (mapCatch e, .pinned url popts)

theorem lookup_isSome_eq_any (l : List (String × PinConfig)) (d : String) :
    (l.lookup d).isSome = l.any (fun p => d == p.1) := by
  induction l with
  | nil => rfl
  | cons p t ih =>
    simp only [List.lookup, List.any_cons]
    cases h : d == p.1 <;> simp [h, ih]

theorem findPinnedDomain_isSome_eq (domains : List (String × PinConfig))
    (d : String) :
    (findPinnedDomain domains d).isSome = hasPinnedConfig domains d := by
  unfold findPinnedDomain hasPinnedConfig
  cases h : domains.lookup d with
  | some cfg =>
    have : (domains.lookup d).isSome = true := by simp [h]
    rw [lookup_isSome_eq_any] at this
    simp [this]
  | none =>
    have : (domains.lookup d).isSome = false := by simp [h]
    rw [lookup_isSome_eq_any] at this
    simp only [this, Bool.false_or]
    cases hf : domains.find?
        (fun p => p.2.includeSubdomains && d.endsWith ("." ++ p.1)) with
    | some x =>
      have hmem := List.mem_of_find?_eq_some hf
      have hpx := List.find?_some hf
      simp only [Option.map_some', Option.isSome_some, true_iff]
      exact (List.any_eq_true.mpr ⟨x, hmem, hpx⟩).symm
    | none =>
      have hall := List.find?_eq_none.mp hf
      simp only [Option.map_none', Option.isSome_none]
      rw [eq_comm, List.any_eq_false]
      intro x hx
      simpa using hall x hx

end CertPinning

namespace CertPinning

/-- C5: with connectivity up, if the URL's hostname has a pinning
configuration — a direct `PINNED_DOMAINS` entry or a subdomain of an entry
with `includeSubdomains` enabled, which is exactly when `findPinnedDomain`
succeeds (first conjunct) — then `secureFetch` forwards the request to the
third-party SSL-pinning fetch with that domain's certificate hashes;
otherwise it falls back to the plain fetch and returns the processed
response, performing no pinning verification of its own. -/
theorem secureFetch_spec (net platformIsAndroid : Bool)
    (plainFetch : String → FetchOptions → Nat → Except String PlainResponse)
    (sslPinningFetch : String → PinningOptions → Except String String)
    (url host : String) (options : FetchOptions) (timeout : Nat)
    (cfg : PinConfig) (pr : PlainResponse) (body : String)
    (hnet : net = true) :
    (findPinnedDomain PINNED_DOMAINS host).isSome
        = hasPinnedConfig PINNED_DOMAINS host ∧
    (findPinnedDomain PINNED_DOMAINS host = some cfg →
      (secureFetch net platformIsAndroid plainFetch sslPinningFetch url host
          options timeout).2
        = .pinned url (mkPinningOptions platformIsAndroid options timeout cfg) ∧
      (mkPinningOptions platformIsAndroid options timeout cfg).certs = cfg.certs ∧
      (sslPinningFetch url (mkPinningOptions platformIsAndroid options timeout cfg)
          = .ok body →
        (secureFetch net platformIsAndroid plainFetch sslPinningFetch url host
            options timeout).1 = .ok body)) ∧
    (findPinnedDomain PINNED_DOMAINS host = none →
      (secureFetch net platformIsAndroid plainFetch sslPinningFetch url host
          options timeout).2 = .plain url options timeout ∧
      (plainFetch url options timeout = .ok pr →
        (secureFetch net platformIsAndroid plainFetch sslPinningFetch url host
            options timeout).1 = .ok (processResponse pr))) := by
  subst hnet
  refine ⟨findPinnedDomain_isSome_eq PINNED_DOMAINS host, ?_, ?_⟩
  · intro h
    refine ⟨?_, rfl, ?_⟩
    · simp only [secureFetch, Bool.not_true, Bool.false_eq_true, if_false, h]
      cases sslPinningFetch url
          (mkPinningOptions platformIsAndroid options timeout cfg) <;> rfl
    · intro hok
      simp only [secureFetch, Bool.not_true, Bool.false_eq_true, if_false, h, hok]
  · intro h
    refine ⟨?_, ?_⟩
    · simp only [secureFetch, Bool.not_true, Bool.false_eq_true, if_false, h]
      cases plainFetch url options timeout <;> rfl
    · intro hok
      simp only [secureFetch, Bool.not_true, Bool.false_eq_true, if_false, h, hok]

/-- Witness for C5: a pinned hostname (`api.example.com`) is served through
the SSL-pinning fetch, whose successful body is returned unchanged. -/
theorem secureFetch_spec_witness :
    (secureFetch true false (fun _ _ _ => .error ("boom"))
        (fun _ _ => .ok ("pinned-body")) ("https://api.example.com/v1")
        ("api.example.com") {} 30000).1 = .ok ("pinned-body") :=
  ((secureFetch_spec true false (fun _ _ _ => .error ("boom"))
      (fun _ _ => .ok ("pinned-body")) ("https://api.example.com/v1")
      ("api.example.com") {} 30000
      ⟨true, ["sha256/AAAAAAAAAAAAAAAAAAAAAAAAAAAAAAAAAAAAAAAAAAA=",
              "sha256/BBBBBBBBBBBBBBBBBBBBBBBBBBBBBBBBBBBBBBBBBBB="]⟩
      ⟨none, "", "", ""⟩ ("pinned-body") rfl).2.1 (by decide)).2.2 rfl

end CertPinning

namespace Permissions

/-! ## Permission request history
(`examples/react-native/utils/permissions-manager.js`, lines 105-132)

`savePermissionHistory(permissionType, result, timestamp)` reads the history
object from AsyncStorage (`{}` when absent), appends `{ result, timestamp }`
to the list of the given permission type, trims the list to its last 5
elements when it exceeds 5 (`slice(-5)`), and writes the object back.  The
JSON (de)serialization through AsyncStorage is modelled as the identity on
the stored object; the storage state is `Option History` (`none` when the key
was never written). -/

/-- One recorded permission request. -/
structure HistEntry where
  result : String
  timestamp : String
deriving Repr, DecidableEq

/-- The stored history object: permission type to its recorded requests, in
JS object insertion order. -/
abbrev History := List (String × List HistEntry)

/-- `history[permissionType] || []`. -/
def histGet (h : History) (t : String) : List HistEntry :=
  (h.lookup t).getD []

/-- JS object update `history[t] = l`: replace in place when the key exists,
append the new key otherwise. -/
def histSet : History → String → List HistEntry → History
  | [], t, l => [(t, l)]
  | p :: h, t, l => if p.1 == t then (t, l) :: h else p :: histSet h t l

/-- The trimming step: `if (length > 5) slice(-5)`. -/
def trimLast5 (l : List HistEntry) : List HistEntry :=
  if 5 < l.length then l.drop (l.length - 5) else l

/-- `savePermissionHistory` on the parsed storage state. -/
def savePermissionHistory (stored : Option History) (permissionType : String)
    (result timestamp : String) : History :=
  let history := stored.getD []
  let l := histGet history permissionType ++ [⟨result, timestamp⟩]
  histSet history permissionType (trimLast5 l)

/-- The invariant of the claim: every permission type's recorded list has at
most 5 entries. -/
def historyBounded (h : History) : Bool :=
  h.all (fun p => p.2.length ≤ 5)

theorem histSet_lookup_self (h : History) (t : String) (l : List HistEntry) :
    (histSet h t l).lookup t = some l := by
  induction h with
  | nil => simp [histSet, List.lookup]
  | cons p tl ih =>
    by_cases hpt : p.1 = t
    · simp [histSet, hpt, List.lookup]
    · have h1 : (p.1 == t) = false := beq_eq_false_iff_ne.mpr hpt
      have h2 : (t == p.1) = false := beq_eq_false_iff_ne.mpr (Ne.symm hpt)
      simp [histSet, h1, h2, List.lookup, ih]

theorem historyBounded_histSet (h : History) (t : String) (l : List HistEntry)
    (hh : historyBounded h = true) (hl : l.length ≤ 5) :
    historyBounded (histSet h t l) = true := by
  induction h with
  | nil => simp [histSet, historyBounded, hl]
  | cons p tl ih =>
    simp only [historyBounded, List.all_cons, Bool.and_eq_true] at hh
    by_cases hpt : p.1 = t
    · have := hh.2
      simp only [historyBounded] at this
      simp [histSet, hpt, historyBounded, hl, this]
    · have h1 : (p.1 == t) = false := beq_eq_false_iff_ne.mpr hpt
      have ihr := ih hh.2
      simp only [historyBounded] at ihr
      have hp := hh.1
      simp [histSet, h1, historyBounded, ihr, decide_eq_true_eq.mp hp]

theorem trimLast5_length (l : List HistEntry) :
    (trimLast5 l).length = min l.length 5 := by
  unfold trimLast5
  split
  · simp only [List.length_drop]
    omega
  · omega

theorem trimLast5_suffix (l : List HistEntry) : (trimLast5 l).IsSuffix l := by
  unfold trimLast5
  split
  · exact List.drop_suffix _ _
  · exact List.suffix_refl _

theorem trimLast5_getLast? (l : List HistEntry) :
    l ≠ [] → (trimLast5 l).getLast? = l.getLast? := by
  intro h
  unfold trimLast5
  split
  · next h5 =>
    rw [List.getLast?_drop, if_neg (by omega)]
  · rfl

theorem histGet_save (stored : Option History) (pt result timestamp : String) :
    histGet (savePermissionHistory stored pt result timestamp) pt
      = trimLast5 (histGet (stored.getD []) pt ++ [⟨result, timestamp⟩]) := by
  unfold savePermissionHistory histGet
  rw [histSet_lookup_self]
  rfl

/-- C10: starting from any stored history in which every permission type has
at most 5 recorded requests, `savePermissionHistory` preserves that bound;
the updated type's new list has length `min (old + 1) 5`, is a suffix of the
old list with the new entry appended (so the most recent requests are the
ones retained), and ends in the new entry. -/
theorem savePermissionHistory_preserves_bound (stored : Option History)
    (permissionType result timestamp : String)
    (hb : historyBounded (stored.getD []) = true) :
    historyBounded
        (savePermissionHistory stored permissionType result timestamp) = true ∧
    (histGet (savePermissionHistory stored permissionType result timestamp)
        permissionType).length
      = min ((histGet (stored.getD []) permissionType).length + 1) 5 ∧
    (histGet (savePermissionHistory stored permissionType result timestamp)
        permissionType).IsSuffix
      (histGet (stored.getD []) permissionType ++ [⟨result, timestamp⟩]) ∧
    (histGet (savePermissionHistory stored permissionType result timestamp)
        permissionType).getLast?
      = some ⟨result, timestamp⟩ := by
  refine ⟨?_, ?_, ?_, ?_⟩
  · unfold savePermissionHistory
    refine historyBounded_histSet _ _ _ hb ?_
    rw [trimLast5_length]
    omega
  · rw [histGet_save, trimLast5_length, List.length_append]
    rfl
  · rw [histGet_save]
    exact trimLast5_suffix _
  · rw [histGet_save, trimLast5_getLast? _ (by simp), List.getLast?_append]
    rfl

/-- Witness for C10: saving a sixth request for the CAMERA permission in a
full history keeps the bound. -/
theorem savePermissionHistory_witness :
    historyBounded
        ((some [(("CAMERA"),
           [⟨("denied"), ("t1")⟩, ⟨("denied"), ("t2")⟩, ⟨("denied"), ("t3")⟩,
            ⟨("denied"), ("t4")⟩, ⟨("granted"), ("t5")⟩])] : Option History).getD [])
      = true ∧
    historyBounded
        (savePermissionHistory
          (some [(("CAMERA"),
            [⟨("denied"), ("t1")⟩, ⟨("denied"), ("t2")⟩, ⟨("denied"), ("t3")⟩,
             ⟨("denied"), ("t4")⟩, ⟨("granted"), ("t5")⟩])])
          ("CAMERA") ("granted") ("t6")) = true :=
  ⟨by decide,
    (savePermissionHistory_preserves_bound
      (some [(("CAMERA"),
        [⟨("denied"), ("t1")⟩, ⟨("denied"), ("t2")⟩, ⟨("denied"), ("t3")⟩,
         ⟨("denied"), ("t4")⟩, ⟨("granted"), ("t5")⟩])])
      ("CAMERA") ("granted") ("t6") (by decide)).1⟩

end Permissions

namespace Examples

/-! ## Cross-file structure of the example snippets

The transcription below records every active (non-commented) `import`
statement of an example file whose module specifier resolves to another
example file of this repository (third-party packages excluded), as triples
of importer path, imported module specifier, and imported symbol:

* `examples/react-native/auth/auth-provider.js`, lines 13-14;
* the secure API client example (`examples/react-native/services/
  api-client.js`, carried in this snapshot as the second document of
  `examples/react-native/README.md`), its line 60;
* the secure API route example (`app/api/users/route.js` in the
  repository's own path aliases), lines 14-16.

Import statements that appear inside block comments (the usage examples at
the bottom of several files) are not transcribed, since they are not code. -/

/-- Active cross-example-file imports: (importer, module specifier, symbol). -/
def exampleCrossImports : List (String × String × String) :=
  [("examples/react-native/auth/auth-provider.js", "../services/api-client",
    "secureApiClient"),
   ("examples/react-native/auth/auth-provider.js", "../utils/biometric-auth",
    "checkBiometricAvailability"),
   ("examples/react-native/services/api-client.js",
    "../utils/certificate-pinning", "secureFetch"),
   ("app/api/users/route.js", "@/utils/rate-limit", "rateLimit"),
   ("app/api/users/route.js", "@/auth/auth-config", "authOptions"),
   ("app/api/users/route.js", "@/utils/input-validation", "validateInput"),
   ("app/api/users/route.js", "@/utils/input-validation", "schemas")]

/-- The limiter the secure API route builds at module load:
`rateLimit({ interval: 60 * 1000, uniqueTokenPerInterval: 500 })`
(`maxRequests` left at its default 10). -/
def usersRouteLimiterOptions : RateLimit.Options :=
  { interval := 60000, maxRequests := 10, uniqueTokenPerInterval := 500 }

/-- The rate-limiting step of the route's `GET` handler (lines 31-41):
`await limiter.check(10, 'users_api')` — a direct invocation of the `check`
closure defined in the rate-limit example file — answering 429 when it
throws (the bare `catch` catches any error, including the TypeError that
`check` in fact always throws at the missing `tokenCache.getTtl`) and
falling through (`none`) when it passes. -/
def usersApiGetRatePrelude (now : Nat) (s : RateLimit.CacheState) :
    Option Nat × RateLimit.CacheState :=
  match RateLimit.check usersRouteLimiterOptions (some 10) ("users_api") now s with
  | (.error _, s') => (some 429, s')
  | (.ok _, s') => (none, s')

/-- C2 counterexample: the example files are not mutually independent — the
list of active cross-example imports is non-empty (for instance the React
Native auth provider imports `secureApiClient` from the API client example). -/
theorem example_files_cross_import :
    exampleCrossImports ≠ [] ∧
    ("examples/react-native/auth/auth-provider.js", "../services/api-client",
      "secureApiClient") ∈ exampleCrossImports := by
  refine ⟨by decide, by decide⟩

/-- C2 as amended: most example files are standalone, but three are not —
the React Native auth provider imports the API client and the biometric-auth
helpers, the API client imports `secureFetch` from the certificate-pinning
example, and the secure API route example imports and invokes `rateLimit`,
`authOptions`, `validateInput` and `schemas` from other example files.  In
particular there is control and data flow across files: the route's `GET`
handler answers 429 exactly when the rate-limit example's `check` throws —
which, because `check` always throws the TypeError of the missing
`tokenCache.getTtl`, is on every request — and it continues with the token
cache state that `check` produced. -/
theorem example_files_dependencies (now : Nat) (s : RateLimit.CacheState) :
    exampleCrossImports =
      [("examples/react-native/auth/auth-provider.js", "../services/api-client",
        "secureApiClient"),
       ("examples/react-native/auth/auth-provider.js", "../utils/biometric-auth",
        "checkBiometricAvailability"),
       ("examples/react-native/services/api-client.js",
        "../utils/certificate-pinning", "secureFetch"),
       ("app/api/users/route.js", "@/utils/rate-limit", "rateLimit"),
       ("app/api/users/route.js", "@/auth/auth-config", "authOptions"),
       ("app/api/users/route.js", "@/utils/input-validation", "validateInput"),
       ("app/api/users/route.js", "@/utils/input-validation", "schemas")] ∧
    (usersApiGetRatePrelude now s).1
      = (if RateLimit.rlIsOk
            (RateLimit.check usersRouteLimiterOptions (some 10) ("users_api")
              now s).1
         then none else some 429) ∧
    (usersApiGetRatePrelude now s).1 = some 429 ∧
    (usersApiGetRatePrelude now s).2
      = (RateLimit.check usersRouteLimiterOptions (some 10) ("users_api")
          now s).2 := by
  exact ⟨rfl, rfl, rfl, rfl⟩

end Examples

namespace SecureInput

/-! ## `styles` of the SecureInput component
(`examples/react-native/components/secure-input.js`, lines 338-384)

The module-level statement `const styles = StyleSheet.create({...})` runs when
the module is evaluated.  Every property value inside the object literal is a
numeric or string literal except two identifier references: the callee
`StyleSheet` (imported from `react-native`) and `a8`, the value of
`inputContainer.borderRadius` at line 353.  JS resolves an identifier through
the module scope and then the global object; an identifier found in neither
throws a `ReferenceError` while the object literal is being evaluated, before
`StyleSheet.create` is even called. -/

/-- Identifiers bound in the module scope of `secure-input.js` when the
`styles` initializer is evaluated: the imports and the previously evaluated
top-level declarations of the file. -/
def moduleScopeIdents : List String :=
  [("React"), ("useState"), ("useRef"), ("useEffect"), ("View"), ("TextInput"),
   ("Text"), ("StyleSheet"), ("TouchableOpacity"), ("Clipboard"), ("Platform"),
   ("Keyboard"), ("z"), ("Icon"), ("SecureInput"), ("Validators"), ("Masks")]

/-- Free identifiers referenced while evaluating the `styles` initializer, in
evaluation order: the argument object's sole identifier-valued property `a8`
(line 353), then the callee `StyleSheet`.  `a8` is not a React Native or
ECMAScript global. -/
def stylesInitFreeIdents : List String := [("a8"), ("StyleSheet")]

/-- Globals visible to the module that are relevant to the referenced
identifiers (none of the free identifiers beyond the module scope exists as a
global). -/
def reactNativeGlobals : List String := []

/-- Evaluate the identifier references of a top-level initializer: the first
identifier bound in neither the module scope nor the global object raises a
`ReferenceError` naming it. -/
def evalTopLevelRefs (scope globals free : List String) : Except String Unit :=
  match free.find? (fun x => !(scope.contains x) && !(globals.contains x)) with
  | some x => .error (("ReferenceError: ") ++ x ++ (" is not defined"))
  | none => .ok ()

/-- C3 (code bug): evaluating the `styles` initializer of the SecureInput
component throws a `ReferenceError` for the undefined identifier `a8`
(`borderRadius: a8`, a slip for the literal `8`), so the module's top-level
definitions do not evaluate successfully and the claim fails on this file. -/
theorem secureInput_styles_reference_error :
    evalTopLevelRefs moduleScopeIdents reactNativeGlobals stylesInitFreeIdents
      = .error ("ReferenceError: a8 is not defined") ∧
    ¬ (("a8") ∈ moduleScopeIdents ∨ ("a8") ∈ reactNativeGlobals) := by
  refine ⟨rfl, by decide⟩

end SecureInput

namespace ApiClient

/-! ## Token-refresh queueing of the API client
(`examples/react-native/services/api-client.js`, carried in this snapshot as
the second document of `examples/react-native/README.md`)

`createApiClient(authProvider)` builds an axios instance with interceptors
over the module-level state `requestQueue`, `isRefreshingToken` and
`refreshSubscribers`.  The response interceptor's error handler (lines
172-273 of the embedded file):

* a `Network Error` while disconnected pushes the request onto
  `requestQueue` (the offline queue, replayed by the NetInfo listener when
  connectivity returns);
* a 401 response on a request not yet retried (`!originalRequest._retry`)
  with an auth provider starts a token refresh when none is in flight
  (`isRefreshingToken`) and, in either case, subscribes the failed request
  via `subscribeTokenRefresh`; when the refresh resolves,
  `onTokenRefreshed` replays every subscriber with the new token, in
  subscription order, and clears the list;
* a 429 response is retried after the `Retry-After` backoff;
* any other error is passed through (`Promise.reject(error)`).

The success handler (lines 150-171) logs security headers and returns the
response unchanged: a concurrent request that does not fail is never queued,
even while a refresh is in flight. -/

/-- The axios request config, as far as the interceptor reads it: a request
identifier and the `_retry` marker. -/
structure RequestConfig where
  id : Nat
  retryMark : Bool
deriving Repr, DecidableEq

/-- An axios response error: the originating config, the error message, and
the response status when a response arrived (`error.response?.status`). -/
structure ApiError where
  config : RequestConfig
  message : String
  status : Option Nat
deriving Repr, DecidableEq

/-- The module-level interceptor state: whether a token refresh is in
flight, the refresh subscribers (requests waiting to be replayed with the
new token, in subscription order), and the offline request queue. -/
structure ClientState where
  isRefreshingToken : Bool
  refreshSubscribers : List Nat
  requestQueue : List Nat
deriving Repr, DecidableEq

/-- What the error handler does with a failed request. -/
inductive ErrorOutcome where
  | queuedOffline
  | subscribedForRefresh (startedRefresh : Bool)
  | retryAfterBackoff
  | rejected
deriving Repr, DecidableEq

/-- The response interceptor's success handler (lines 150-171): the response
is returned unchanged and no queue is touched. -/
def onResponseSuccess (response : Nat) (s : ClientState) : Nat × ClientState :=
  (response, s)

/-- The response interceptor's error handler (lines 172-273). -/
def onResponseError (e : ApiError) (netConnected : Bool)
    (hasAuthProvider : Bool) (s : ClientState) :
    ErrorOutcome × ClientState :=
  if e.message = "Network Error" ∧ netConnected = false then
    (.queuedOffline,
      { s with requestQueue := s.requestQueue ++ [e.config.id] })
  else if e.status = some 401 ∧ e.config.retryMark = false
      ∧ hasAuthProvider = true then
    (.subscribedForRefresh (!s.isRefreshingToken),
      { s with isRefreshingToken := true,
               refreshSubscribers := s.refreshSubscribers ++ [e.config.id] })
  else if e.status = some 429 then
    (.retryAfterBackoff, s)
  else
    (.rejected, s)

/-- Completion of a successful token refresh (lines 199-210 together with
`onTokenRefreshed`, lines 91-94): `isRefreshingToken` clears, and every
subscriber is replayed with the new token in subscription order, after
which the subscriber list is empty. -/
def completeTokenRefresh (s : ClientState) : List Nat × ClientState :=
  (s.refreshSubscribers,
    { s with isRefreshingToken := false, refreshSubscribers := [] })

/-- C7 counterexample: with a token refresh in flight
(`isRefreshingToken = true`, request 1 already subscribed), a concurrent
request that completes successfully is returned immediately with neither
queue touched, and a concurrent request failing with 404 is rejected, not
queued — so it is not the case that concurrent requests through the client
are queued and replayed; only offline requests and 401-failed requests
are. -/
theorem concurrent_request_not_queued :
    onResponseSuccess 200 ⟨true, [1], []⟩ = (200, ⟨true, [1], []⟩) ∧
    onResponseError ⟨⟨2, false⟩, ("Not Found"), some 404⟩ true true
        ⟨true, [1], []⟩
      = (.rejected, ⟨true, [1], []⟩) := by
  exact ⟨rfl, by decide⟩

/-- C7 as amended: the client implements the interceptor token-refresh queue
for requests that fail with 401.  A not-yet-retried request that fails with
401 (with an auth provider, and not an offline network error) is appended to
the refresh subscribers — a refresh being started exactly when none was in
flight — and completing the refresh replays all subscribers, this one
included, in order, clearing the list; a request that does not fail is
returned unchanged and never queued. -/
theorem client_subscribes_401_and_replays (e : ApiError)
    (netConnected hasAuthProvider : Bool) (s : ClientState) (response : Nat)
    (h401 : e.status = some 401) (hretry : e.config.retryMark = false)
    (hauth : hasAuthProvider = true)
    (hnotnet : ¬(e.message = "Network Error" ∧ netConnected = false)) :
    (onResponseError e netConnected hasAuthProvider s).1
        = .subscribedForRefresh (!s.isRefreshingToken) ∧
    (onResponseError e netConnected hasAuthProvider s).2
        = { s with isRefreshingToken := true,
                   refreshSubscribers := s.refreshSubscribers
                     ++ [e.config.id] } ∧
    (completeTokenRefresh (onResponseError e netConnected hasAuthProvider
        s).2).1
      = s.refreshSubscribers ++ [e.config.id] ∧
    (completeTokenRefresh (onResponseError e netConnected hasAuthProvider
        s).2).2.refreshSubscribers = [] ∧
    (completeTokenRefresh (onResponseError e netConnected hasAuthProvider
        s).2).2.isRefreshingToken = false ∧
    onResponseSuccess response s = (response, s) := by
  unfold onResponseError
  rw [if_neg hnotnet, if_pos ⟨h401, hretry, hauth⟩]
  exact ⟨rfl, rfl, rfl, rfl, rfl, rfl⟩

/-- Witness for the amended C7 theorem: request 7 fails with 401 while a
refresh is in flight with request 5 already subscribed; completing the
refresh replays 5 then 7. -/
theorem client_subscribes_401_and_replays_witness :
    (completeTokenRefresh
        (onResponseError
          ⟨⟨7, false⟩, ("Request failed with status code 401"), some 401⟩
          true true ⟨true, [5], []⟩).2).1
      = [5] ++ [7] :=
  (client_subscribes_401_and_replays
    ⟨⟨7, false⟩, ("Request failed with status code 401"), some 401⟩
    true true ⟨true, [5], []⟩ 200 rfl rfl rfl (by simp)).2.2.1

end ApiClient

namespace SecureStorage

/-! ## XOR demonstration cipher (`_encryptXOR` / `_decryptXOR`,
secure storage example, lines 226-245)

```
_encryptXOR(text, key): for each i, String.fromCharCode(
    text.charCodeAt(i) ^ key.charCodeAt(i % key.length));
  return Buffer.from(result).toString('base64')
_decryptXOR(encryptedBase64, key):
  const encryptedText = Buffer.from(encryptedBase64, 'base64').toString();
  ... same XOR loop ...
```

JS strings are sequences of UTF-16 code units; `charCodeAt` reads one code
unit and `^` coerces to 32-bit integers.  The embedding uses `List Nat` of
code units (each below `0x10000`).  `Buffer.from(string)` encodes the string
as UTF-8, combining well-formed surrogate pairs into one code point and
replacing every unpaired surrogate with U+FFFD (the Node replacement
behaviour — the lossy step on which the round-trip can fail);
`.toString('base64')` is standard base64 with padding, and
`Buffer.from(s, 'base64').toString()` inverts those two steps.  The decoder's
handling of malformed UTF-8 (which no output of the encoder exhibits) is
simplified to emitting U+FFFD. -/

/-- The XOR loop shared by both functions:
`text.charCodeAt(i) ^ key.charCodeAt(i % key.length)` for each position.  (For
an empty key JS produces `NaN`, which `^` coerces to 0; `getD _ 0` matches.) -/
def xorCycle (key : List Nat) : Nat → List Nat → List Nat
  | _, [] => []
  | i, c :: cs => (c ^^^ key.getD (i % key.length) 0) :: xorCycle key (i + 1) cs

/-- High (leading) UTF-16 surrogate. -/
def isHighSurrogate (c : Nat) : Bool :=
  decide (0xD800 ≤ c ∧ c ≤ 0xDBFF)

/-- Low (trailing) UTF-16 surrogate. -/
def isLowSurrogate (c : Nat) : Bool :=
  decide (0xDC00 ≤ c ∧ c ≤ 0xDFFF)

/-- UTF-8 encoding of one code point. -/
def utf8EncodeScalar (s : Nat) : List Nat :=
  if s < 0x80 then [s]
  else if s < 0x800 then [0xC0 + s / 0x40, 0x80 + s % 0x40]
  else if s < 0x10000 then
    [0xE0 + s / 0x1000, 0x80 + s / 0x40 % 0x40, 0x80 + s % 0x40]
  else
    [0xF0 + s / 0x40000, 0x80 + s / 0x1000 % 0x40, 0x80 + s / 0x40 % 0x40,
     0x80 + s % 0x40]

/-- `Buffer.from(string)`: UTF-8 bytes of a UTF-16 code-unit sequence.  A
high surrogate followed by a low surrogate encodes as the combined code
point; an unpaired surrogate encodes as U+FFFD. -/
def utf8EncodeUnits : List Nat → List Nat
  | [] => []
  | [c] =>
    if isHighSurrogate c || isLowSurrogate c then utf8EncodeScalar 0xFFFD
    else utf8EncodeScalar c
  | c :: c2 :: cs =>
    if isHighSurrogate c then
      if isLowSurrogate c2 then
        utf8EncodeScalar (0x10000 + (c - 0xD800) * 0x400 + (c2 - 0xDC00))
          ++ utf8EncodeUnits cs
      else utf8EncodeScalar 0xFFFD ++ utf8EncodeUnits (c2 :: cs)
    else if isLowSurrogate c then
      utf8EncodeScalar 0xFFFD ++ utf8EncodeUnits (c2 :: cs)
    else utf8EncodeScalar c ++ utf8EncodeUnits (c2 :: cs)

/-- Whether a byte is a UTF-8 continuation byte. -/
def isCont (b : Nat) : Bool := decide (0x80 ≤ b ∧ b < 0xC0)

/-- One step of UTF-8 decoding: given the first byte and the remaining
bytes, the UTF-16 code units emitted (a supplementary code point becomes a
surrogate pair) and the bytes left over. -/
def utf8DecodeStep (b : Nat) (bs : List Nat) : List Nat × List Nat :=
  if b < 0x80 then ([b], bs)
  else if b < 0xC0 then ([0xFFFD], bs)
  else if b < 0xE0 then
    match bs with
    | b2 :: bs' =>
      if isCont b2 then ([(b - 0xC0) * 0x40 + (b2 - 0x80)], bs')
      else ([0xFFFD], b2 :: bs')
    | [] => ([0xFFFD], [])
  else if b < 0xF0 then
    match bs with
    | b2 :: b3 :: bs' =>
      if isCont b2 && isCont b3 then
        ([(b - 0xE0) * 0x1000 + (b2 - 0x80) * 0x40 + (b3 - 0x80)], bs')
      else ([0xFFFD], b2 :: b3 :: bs')
    | _ => ([0xFFFD], [])
  else
    match bs with
    | b2 :: b3 :: b4 :: bs' =>
      if isCont b2 && isCont b3 && isCont b4 then
        ([((b - 0xF0) * 0x40000 + (b2 - 0x80) * 0x1000 + (b3 - 0x80) * 0x40
            + (b4 - 0x80) - 0x10000) / 0x400 + 0xD800,
          ((b - 0xF0) * 0x40000 + (b2 - 0x80) * 0x1000 + (b3 - 0x80) * 0x40
            + (b4 - 0x80) - 0x10000) % 0x400 + 0xDC00], bs')
      else ([0xFFFD], b2 :: b3 :: b4 :: bs')
    | _ => ([0xFFFD], [])

/-- The decoding loop, with explicit fuel so that the recursion is structural
(the fuel `l.length` of `utf8DecodeBytes` always suffices, since every step
consumes at least one byte). -/
def utf8DecodeAux : Nat → List Nat → List Nat
  | _, [] => []
  | 0, _ :: _ => []
  | fuel + 1, b :: bs =>
    (utf8DecodeStep b bs).1 ++ utf8DecodeAux fuel (utf8DecodeStep b bs).2

/-- `buffer.toString()`: decode UTF-8 bytes back to UTF-16 code units. -/
def utf8DecodeBytes (l : List Nat) : List Nat :=
  utf8DecodeAux l.length l

/-- The standard base64 alphabet, as character codes. -/
def b64Char (n : Nat) : Nat :=
  if n < 26 then 65 + n
  else if n < 52 then 97 + (n - 26)
  else if n < 62 then 48 + (n - 52)
  else if n = 62 then 43
  else 47

/-- Inverse of the base64 alphabet. -/
def b64Inv (c : Nat) : Nat :=
  if 65 ≤ c ∧ c ≤ 90 then c - 65
  else if 97 ≤ c ∧ c ≤ 122 then c - 97 + 26
  else if 48 ≤ c ∧ c ≤ 57 then c - 48 + 52
  else if c = 43 then 62
  else 63

/-- `buffer.toString('base64')`: 3-byte groups become 4 alphabet characters;
a trailing group of 1 or 2 bytes is padded with `=` (code 61). -/
def base64Encode : List Nat → List Nat
  | [] => []
  | [b1] => [b64Char (b1 / 4), b64Char (b1 % 4 * 16), 61, 61]
  | [b1, b2] =>
    [b64Char (b1 / 4), b64Char (b1 % 4 * 16 + b2 / 16), b64Char (b2 % 16 * 4), 61]
  | b1 :: b2 :: b3 :: rest =>
    b64Char (b1 / 4) :: b64Char (b1 % 4 * 16 + b2 / 16)
      :: b64Char (b2 % 16 * 4 + b3 / 64) :: b64Char (b3 % 64)
      :: base64Encode rest

/-- `Buffer.from(s, 'base64')` on well-padded input: 4 characters become 3
bytes, with `=` padding cutting the final group short. -/
def base64Decode : List Nat → List Nat
  | c1 :: c2 :: c3 :: c4 :: rest =>
    if c3 = 61 then [b64Inv c1 * 4 + b64Inv c2 / 16]
    else if c4 = 61 then
      [b64Inv c1 * 4 + b64Inv c2 / 16, b64Inv c2 % 16 * 16 + b64Inv c3 / 4]
    else
      (b64Inv c1 * 4 + b64Inv c2 / 16)
        :: (b64Inv c2 % 16 * 16 + b64Inv c3 / 4)
        :: (b64Inv c3 % 4 * 64 + b64Inv c4) :: base64Decode rest
  | _ => []

/-- `_encryptXOR(text, key)`. -/
def encryptXOR (text key : List Nat) : List Nat :=
  base64Encode (utf8EncodeUnits (xorCycle key 0 text))

/-- `_decryptXOR(encryptedBase64, key)`. -/
def decryptXOR (enc key : List Nat) : List Nat :=
  xorCycle key 0 (utf8DecodeBytes (base64Decode enc))

/-- Well-formed UTF-16: every high surrogate is followed by a low surrogate
and no low surrogate appears on its own. -/
def wellFormedUtf16 : List Nat → Bool
  | [] => true
  | [c] => !(isHighSurrogate c) && !(isLowSurrogate c)
  | c :: c2 :: cs =>
    if isHighSurrogate c then isLowSurrogate c2 && wellFormedUtf16 cs
    else !(isLowSurrogate c) && wellFormedUtf16 (c2 :: cs)

end SecureStorage

namespace SecureStorage

/-! ### XOR lemmas -/

theorem xorCycle_involution (key : List Nat) (i : Nat) (text : List Nat) :
    xorCycle key i (xorCycle key i text) = text := by
  induction text generalizing i with
  | nil => rfl
  | cons c cs ih =>
    simp only [xorCycle, ih]
    rw [Nat.xor_assoc, Nat.xor_self, Nat.xor_zero]

theorem xor_div_128 (c k : Nat) (hk : k < 128) : (c ^^^ k) / 128 = c / 128 := by
  have h7 : (128 : Nat) = 2 ^ 7 := rfl
  rw [h7, ← Nat.shiftRight_eq_div_pow, ← Nat.shiftRight_eq_div_pow]
  apply Nat.eq_of_testBit_eq
  intro i
  rw [Nat.testBit_shiftRight, Nat.testBit_shiftRight, Nat.testBit_xor]
  have hkbit : k.testBit (7 + i) = false := by
    apply Nat.testBit_lt_two_pow
    calc k < 128 := hk
    _ = 2 ^ 7 := rfl
    _ ≤ 2 ^ (7 + i) := Nat.pow_le_pow_right (by omega) (by omega)
  simp [hkbit]

theorem isHighSurrogate_xor (c k : Nat) (hk : k < 128) :
    isHighSurrogate (c ^^^ k) = isHighSurrogate c := by
  have h := xor_div_128 c k hk
  unfold isHighSurrogate
  rw [decide_eq_decide]
  omega

theorem isLowSurrogate_xor (c k : Nat) (hk : k < 128) :
    isLowSurrogate (c ^^^ k) = isLowSurrogate c := by
  have h := xor_div_128 c k hk
  unfold isLowSurrogate
  rw [decide_eq_decide]
  omega

theorem xor_lt_x10000 (c k : Nat) (hk : k < 128) (hc : c < 0x10000) :
    c ^^^ k < 0x10000 := by
  have h := xor_div_128 c k hk
  omega

end SecureStorage

namespace SecureStorage

/-! ### Decoder unfolding -/

theorem utf8DecodeStep_snd_length (b : Nat) (bs : List Nat) :
    (utf8DecodeStep b bs).2.length ≤ bs.length := by
  unfold utf8DecodeStep
  repeat' split
  all_goals (try simp)
  all_goals omega

theorem utf8DecodeAux_nil (n : Nat) : utf8DecodeAux n [] = [] := by
  cases n <;> rfl

theorem utf8DecodeAux_congr (n : Nat) : ∀ (m : Nat) (l : List Nat),
    l.length ≤ n → l.length ≤ m → utf8DecodeAux n l = utf8DecodeAux m l := by
  induction n with
  | zero =>
    intro m l hn _
    have hl : l = [] := List.eq_nil_of_length_eq_zero (by omega)
    subst hl
    rw [utf8DecodeAux_nil, utf8DecodeAux_nil]
  | succ n ih =>
    intro m l hn hm
    cases l with
    | nil => rw [utf8DecodeAux_nil, utf8DecodeAux_nil]
    | cons b bs =>
      cases m with
      | zero => simp at hm
      | succ m =>
        simp only [utf8DecodeAux]
        have hstep := utf8DecodeStep_snd_length b bs
        simp only [List.length_cons] at hn hm
        rw [ih m (utf8DecodeStep b bs).2 (by omega) (by omega)]

theorem utf8DecodeBytes_nil : utf8DecodeBytes [] = [] := rfl

theorem utf8DecodeBytes_cons (b : Nat) (bs : List Nat) :
    utf8DecodeBytes (b :: bs)
      = (utf8DecodeStep b bs).1 ++ utf8DecodeBytes (utf8DecodeStep b bs).2 := by
  unfold utf8DecodeBytes
  simp only [List.length_cons, utf8DecodeAux]
  have hstep := utf8DecodeStep_snd_length b bs
  rw [utf8DecodeAux_congr bs.length (utf8DecodeStep b bs).2.length
    (utf8DecodeStep b bs).2 (by omega) (by omega)]

end SecureStorage

namespace SecureStorage

/-! ### Decoding inverts encoding -/

theorem utf8DecodeStep_ascii (b : Nat) (bs : List Nat) (h : b < 0x80) :
    utf8DecodeStep b bs = ([b], bs) := by
  unfold utf8DecodeStep
  rw [if_pos h]

theorem utf8DecodeStep_two (b b2 : Nat) (bs : List Nat)
    (h1 : 0xC0 ≤ b) (h2 : b < 0xE0) (h3 : isCont b2 = true) :
    utf8DecodeStep b (b2 :: bs) = ([(b - 0xC0) * 0x40 + (b2 - 0x80)], bs) := by
  unfold utf8DecodeStep
  rw [if_neg (by omega), if_neg (by omega), if_pos h2]
  simp only [h3, if_true]

theorem utf8DecodeStep_three (b b2 b3 : Nat) (bs : List Nat)
    (h1 : 0xE0 ≤ b) (h2 : b < 0xF0) (h3 : isCont b2 = true)
    (h4 : isCont b3 = true) :
    utf8DecodeStep b (b2 :: b3 :: bs)
      = ([(b - 0xE0) * 0x1000 + (b2 - 0x80) * 0x40 + (b3 - 0x80)], bs) := by
  unfold utf8DecodeStep
  rw [if_neg (by omega), if_neg (by omega), if_neg (by omega), if_pos h2]
  simp only [h3, h4, Bool.and_self, if_true]

theorem utf8DecodeStep_four (b b2 b3 b4 : Nat) (bs : List Nat)
    (h1 : 0xF0 ≤ b) (h3 : isCont b2 = true) (h4 : isCont b3 = true)
    (h5 : isCont b4 = true) :
    utf8DecodeStep b (b2 :: b3 :: b4 :: bs)
      = ([((b - 0xF0) * 0x40000 + (b2 - 0x80) * 0x1000 + (b3 - 0x80) * 0x40
            + (b4 - 0x80) - 0x10000) / 0x400 + 0xD800,
          ((b - 0xF0) * 0x40000 + (b2 - 0x80) * 0x1000 + (b3 - 0x80) * 0x40
            + (b4 - 0x80) - 0x10000) % 0x400 + 0xDC00], bs) := by
  unfold utf8DecodeStep
  rw [if_neg (by omega), if_neg (by omega), if_neg (by omega), if_neg (by omega)]
  simp only [h3, h4, h5, Bool.and_self, if_true]

theorem isCont_true_of (x : Nat) (h1 : 0x80 ≤ x) (h2 : x < 0xC0) :
    isCont x = true := by
  unfold isCont
  rw [decide_eq_true_eq]
  exact ⟨h1, h2⟩

theorem utf8DecodeBytes_encodeScalar (c : Nat) (hc : c < 0x10000)
    (bs : List Nat) :
    utf8DecodeBytes (utf8EncodeScalar c ++ bs) = c :: utf8DecodeBytes bs := by
  unfold utf8EncodeScalar
  by_cases h1 : c < 0x80
  · rw [if_pos h1]
    simp only [List.cons_append, List.nil_append]
    rw [utf8DecodeBytes_cons, utf8DecodeStep_ascii _ _ h1]
    simp
  · rw [if_neg h1]
    by_cases h2 : c < 0x800
    · rw [if_pos h2]
      simp only [List.cons_append, List.nil_append]
      rw [utf8DecodeBytes_cons,
        utf8DecodeStep_two _ _ _ (by omega) (by omega)
          (isCont_true_of _ (by omega) (by omega))]
      simp only [List.singleton_append, List.cons.injEq]
      exact ⟨by omega, trivial⟩
    · rw [if_neg h2, if_pos hc]
      simp only [List.cons_append, List.nil_append]
      rw [utf8DecodeBytes_cons,
        utf8DecodeStep_three _ _ _ _ (by omega) (by omega)
          (isCont_true_of _ (by omega) (by omega))
          (isCont_true_of _ (by omega) (by omega))]
      simp only [List.singleton_append, List.cons.injEq]
      exact ⟨by omega, trivial⟩

theorem utf8DecodeBytes_encodeScalar4 (s : Nat) (hs1 : 0x10000 ≤ s)
    (hs2 : s < 0x110000) (bs : List Nat) :
    utf8DecodeBytes (utf8EncodeScalar s ++ bs)
      = ((s - 0x10000) / 0x400 + 0xD800)
        :: ((s - 0x10000) % 0x400 + 0xDC00) :: utf8DecodeBytes bs := by
  unfold utf8EncodeScalar
  rw [if_neg (by omega), if_neg (by omega), if_neg (by omega)]
  simp only [List.cons_append, List.nil_append]
  rw [utf8DecodeBytes_cons,
    utf8DecodeStep_four _ _ _ _ _ (by omega)
      (isCont_true_of _ (by omega) (by omega))
      (isCont_true_of _ (by omega) (by omega))
      (isCont_true_of _ (by omega) (by omega))]
  simp only [List.cons_append, List.nil_append, List.cons.injEq]
  refine ⟨by omega, by omega, trivial⟩

end SecureStorage

namespace SecureStorage

theorem utf8_roundtrip : ∀ cus : List Nat,
    cus.all (fun c => decide (c < 0x10000)) = true →
    wellFormedUtf16 cus = true →
    utf8DecodeBytes (utf8EncodeUnits cus) = cus := by
  intro cus
  induction cus using utf8EncodeUnits.induct with
  | case1 =>
    intro _ _
    rfl
  | case2 c hc =>
    intro _ hwf
    exfalso
    simp only [wellFormedUtf16, Bool.and_eq_true, Bool.not_eq_true'] at hwf
    simp only [Bool.or_eq_true] at hc
    rcases hc with h | h <;> simp_all
  | case3 c hc =>
    intro hlt _
    simp only [List.all_cons, Bool.and_eq_true, decide_eq_true_eq] at hlt
    simp only [utf8EncodeUnits, hc, Bool.false_eq_true, if_false]
    rw [← List.append_nil (utf8EncodeScalar c),
      utf8DecodeBytes_encodeScalar c hlt.1]
    rfl
  | case4 c c2 cs hhigh hlow ih =>
    intro hlt hwf
    simp only [List.all_cons, Bool.and_eq_true, decide_eq_true_eq] at hlt
    simp only [wellFormedUtf16, hhigh, if_true, Bool.and_eq_true] at hwf
    simp only [utf8EncodeUnits, hhigh, hlow, if_true]
    unfold isHighSurrogate at hhigh
    unfold isLowSurrogate at hlow
    rw [decide_eq_true_eq] at hhigh hlow
    rw [utf8DecodeBytes_encodeScalar4 _ (by omega) (by omega),
      ih hlt.2.2 hwf.2]
    simp only [List.cons.injEq]
    refine ⟨by omega, by omega, trivial⟩
  | case5 c c2 cs hhigh hlow ih =>
    intro hlt hwf
    exfalso
    simp only [wellFormedUtf16, hhigh, if_true, Bool.and_eq_true] at hwf
    exact absurd hwf.1 (by simp [hlow])
  | case6 c c2 cs hhigh hlow ih =>
    intro hlt hwf
    exfalso
    simp only [wellFormedUtf16, hhigh, Bool.false_eq_true, if_false,
      Bool.and_eq_true, Bool.not_eq_true'] at hwf
    simp_all
  | case7 c c2 cs hhigh hlow ih =>
    intro hlt hwf
    simp only [List.all_cons, Bool.and_eq_true, decide_eq_true_eq] at hlt
    simp only [wellFormedUtf16, hhigh, Bool.false_eq_true, if_false,
      Bool.and_eq_true] at hwf
    simp only [utf8EncodeUnits, hhigh, hlow, Bool.false_eq_true, if_false]
    rw [utf8DecodeBytes_encodeScalar c hlt.1]
    rw [ih (by simp [List.all_cons, hlt.2.1, hlt.2.2]) hwf.2]

end SecureStorage

namespace SecureStorage

/-! ### XOR with a short key preserves well-formedness -/

theorem key_getD_lt (key : List Nat)
    (hkey : key.all (fun k => decide (k < 128)) = true) (j : Nat) :
    key.getD j 0 < 128 := by
  induction key generalizing j with
  | nil => simp [List.getD]
  | cons k ks ih =>
    simp only [List.all_cons, Bool.and_eq_true, decide_eq_true_eq] at hkey
    cases j with
    | zero => simpa [List.getD] using hkey.1
    | succ j =>
      have := ih (by simpa using hkey.2) j
      simpa [List.getD] using this

theorem allBelow_xorCycle (key : List Nat)
    (hkey : key.all (fun k => decide (k < 128)) = true) :
    ∀ (text : List Nat),
      text.all (fun c => decide (c < 0x10000)) = true →
      ∀ i, (xorCycle key i text).all (fun c => decide (c < 0x10000)) = true := by
  intro text
  induction text with
  | nil => intro _ _; rfl
  | cons c cs ih =>
    intro ht i
    simp only [List.all_cons, Bool.and_eq_true, decide_eq_true_eq] at ht
    simp only [xorCycle, List.all_cons, Bool.and_eq_true, decide_eq_true_eq]
    exact ⟨xor_lt_x10000 c _ (key_getD_lt key hkey _) ht.1,
      ih (by simpa using ht.2) (i + 1)⟩

theorem wellFormed_xorCycle (key : List Nat)
    (hkey : key.all (fun k => decide (k < 128)) = true) :
    ∀ (text : List Nat), wellFormedUtf16 text = true →
      ∀ i, wellFormedUtf16 (xorCycle key i text) = true := by
  intro text
  induction text using wellFormedUtf16.induct with
  | case1 => intro _ _; rfl
  | case2 c =>
    intro hw i
    simp only [wellFormedUtf16] at hw
    simp only [xorCycle, wellFormedUtf16,
      isHighSurrogate_xor c _ (key_getD_lt key hkey _),
      isLowSurrogate_xor c _ (key_getD_lt key hkey _)]
    exact hw
  | case3 c c2 cs hhigh ih =>
    intro hw i
    simp only [wellFormedUtf16, hhigh, if_true, Bool.and_eq_true] at hw
    simp only [xorCycle, wellFormedUtf16,
      isHighSurrogate_xor c _ (key_getD_lt key hkey _),
      isLowSurrogate_xor c2 _ (key_getD_lt key hkey _), hhigh, if_true,
      Bool.and_eq_true]
    exact ⟨hw.1, ih hw.2 (i + 2)⟩
  | case4 c c2 cs hhigh ih =>
    intro hw i
    simp only [wellFormedUtf16, hhigh, Bool.false_eq_true, if_false,
      Bool.and_eq_true] at hw
    have hx := isHighSurrogate_xor c _ (key_getD_lt key hkey (i % key.length))
    simp only [xorCycle, wellFormedUtf16, hx,
      isLowSurrogate_xor c _ (key_getD_lt key hkey _), hhigh,
      Bool.false_eq_true, if_false, Bool.and_eq_true]
    refine ⟨by simpa using hw.1, ?_⟩
    have := ih hw.2 (i + 1)
    simpa [xorCycle] using this

end SecureStorage

namespace SecureStorage

/-! ### Encoder output bytes are bytes -/

theorem utf8EncodeScalar_all_lt256 (s : Nat) (hs : s < 0x110000) :
    (utf8EncodeScalar s).all (fun b => decide (b < 256)) = true := by
  unfold utf8EncodeScalar
  repeat' split
  all_goals
    simp only [List.all_cons, List.all_nil, Bool.and_eq_true,
      decide_eq_true_eq, and_true]
  all_goals omega

theorem utf8EncodeUnits_all_lt256 : ∀ cus : List Nat,
    cus.all (fun c => decide (c < 0x10000)) = true →
    (utf8EncodeUnits cus).all (fun b => decide (b < 256)) = true := by
  intro cus
  induction cus using utf8EncodeUnits.induct with
  | case1 => intro _; rfl
  | case2 c hc =>
    intro _
    simp only [utf8EncodeUnits, hc, if_true]
    exact utf8EncodeScalar_all_lt256 _ (by omega)
  | case3 c hc =>
    intro hlt
    simp only [List.all_cons, Bool.and_eq_true, decide_eq_true_eq] at hlt
    simp only [utf8EncodeUnits, hc, Bool.false_eq_true, if_false]
    exact utf8EncodeScalar_all_lt256 _ (by omega)
  | case4 c c2 cs hhigh hlow ih =>
    intro hlt
    simp only [List.all_cons, Bool.and_eq_true, decide_eq_true_eq] at hlt
    simp only [utf8EncodeUnits, hhigh, hlow, if_true, List.all_append,
      Bool.and_eq_true]
    unfold isHighSurrogate at hhigh
    unfold isLowSurrogate at hlow
    rw [decide_eq_true_eq] at hhigh hlow
    exact ⟨utf8EncodeScalar_all_lt256 _ (by omega), ih hlt.2.2⟩
  | case5 c c2 cs hhigh hlow ih =>
    intro hlt
    simp only [List.all_cons, Bool.and_eq_true, decide_eq_true_eq] at hlt
    simp only [utf8EncodeUnits, hhigh, hlow, if_true, Bool.false_eq_true,
      if_false, List.all_append, Bool.and_eq_true]
    refine ⟨utf8EncodeScalar_all_lt256 _ (by omega), ?_⟩
    exact ih (by simp [List.all_cons, hlt.2.1, hlt.2.2])
  | case6 c c2 cs hhigh hlow ih =>
    intro hlt
    simp only [List.all_cons, Bool.and_eq_true, decide_eq_true_eq] at hlt
    simp only [utf8EncodeUnits, hhigh, hlow, if_true, Bool.false_eq_true,
      if_false, List.all_append, Bool.and_eq_true]
    refine ⟨utf8EncodeScalar_all_lt256 _ (by omega), ?_⟩
    exact ih (by simp [List.all_cons, hlt.2.1, hlt.2.2])
  | case7 c c2 cs hhigh hlow ih =>
    intro hlt
    simp only [List.all_cons, Bool.and_eq_true, decide_eq_true_eq] at hlt
    simp only [utf8EncodeUnits, hhigh, hlow, Bool.false_eq_true, if_false,
      List.all_append, Bool.and_eq_true]
    refine ⟨utf8EncodeScalar_all_lt256 _ (by omega), ?_⟩
    exact ih (by simp [List.all_cons, hlt.2.1, hlt.2.2])

/-! ### Base64 round-trip -/

theorem b64Inv_b64Char : ∀ n, n < 64 → b64Inv (b64Char n) = n := by decide

theorem b64Char_ne_61 : ∀ n, n < 64 → b64Char n ≠ 61 := by decide

theorem base64_roundtrip : ∀ bytes : List Nat,
    bytes.all (fun b => decide (b < 256)) = true →
    base64Decode (base64Encode bytes) = bytes := by
  intro bytes
  induction bytes using base64Encode.induct with
  | case1 => intro _; rfl
  | case2 b1 =>
    intro h
    simp only [List.all_cons, List.all_nil, Bool.and_eq_true,
      decide_eq_true_eq, and_true] at h
    simp only [base64Encode, base64Decode]
    rw [if_pos trivial]
    rw [b64Inv_b64Char _ (by omega), b64Inv_b64Char _ (by omega)]
    simp only [List.cons.injEq, eq_self_iff_true, and_true]
    omega
  | case3 b1 b2 =>
    intro h
    simp only [List.all_cons, List.all_nil, Bool.and_eq_true,
      decide_eq_true_eq, and_true] at h
    simp only [base64Encode, base64Decode]
    rw [if_neg (b64Char_ne_61 _ (by omega)), if_pos trivial]
    rw [b64Inv_b64Char _ (by omega), b64Inv_b64Char _ (by omega),
      b64Inv_b64Char _ (by omega)]
    simp only [List.cons.injEq, eq_self_iff_true, and_true]
    constructor <;> omega
  | case4 b1 b2 b3 rest ih =>
    intro h
    simp only [List.all_cons, Bool.and_eq_true, decide_eq_true_eq] at h
    simp only [base64Encode, base64Decode]
    rw [if_neg (b64Char_ne_61 _ (by omega)), if_neg (b64Char_ne_61 _ (by omega))]
    rw [b64Inv_b64Char _ (by omega), b64Inv_b64Char _ (by omega),
      b64Inv_b64Char _ (by omega), b64Inv_b64Char _ (by omega)]
    rw [ih h.2.2.2]
    simp only [List.cons.injEq]
    refine ⟨by omega, by omega, by omega, trivial⟩

end SecureStorage

namespace SecureStorage

/-- C9 counterexample: the round-trip fails as universally stated.  The JS
string consisting of the single code unit `0xD800` (an unpaired surrogate —
a legal JS string) with key `"a"` (code 97, below 128) does not survive
`_decryptXOR(_encryptXOR(text, key), key)`: the XOR maps `0xD800` to the
unpaired surrogate `0xD861`, which `Buffer.from(result)` replaces with
U+FFFD, so decryption returns `[0xFF9C]` instead of `[0xD800]`. -/
theorem xor_cipher_roundtrip_counterexample :
    ([0xD800].all (fun c => decide (c < 0x10000)) = true) ∧
    ([97] ≠ ([] : List Nat)) ∧
    ([97].all (fun k => decide (k < 128)) = true) ∧
    decryptXOR (encryptXOR [0xD800] [97]) [97] = [0xFF9C] ∧
    decryptXOR (encryptXOR [0xD800] [97]) [97] ≠ [0xD800] := by
  refine ⟨by decide, by decide, by decide, by decide, by decide⟩

/-- C9 as amended: for every text whose code units form well-formed UTF-16
(no unpaired surrogates) and every non-empty key whose code points are all
below 128, `_decryptXOR(_encryptXOR(text, key), key) = text`.  (XOR with a
key below 128 maps well-formed code-unit sequences to well-formed ones, the
UTF-8/base64 encoding of `Buffer` round-trips on those, and XOR is an
involution.) -/
theorem xor_cipher_roundtrip (text key : List Nat)
    (htext : text.all (fun c => decide (c < 0x10000)) = true)
    (hwf : wellFormedUtf16 text = true)
    (hkey : key ≠ [])
    (hkeylt : key.all (fun k => decide (k < 128)) = true) :
    decryptXOR (encryptXOR text key) key = text := by
  unfold encryptXOR decryptXOR
  rw [base64_roundtrip _
    (utf8EncodeUnits_all_lt256 _ (allBelow_xorCycle key hkeylt text htext 0))]
  rw [utf8_roundtrip _ (allBelow_xorCycle key hkeylt text htext 0)
    (wellFormed_xorCycle key hkeylt text hwf 0)]
  exact xorCycle_involution key 0 text

/-- Witness for the amended C9 theorem: the text `"H𝐀"` (code units
`[72, 0xD835, 0xDC00]`, a surrogate pair among them) round-trips under the
key `"k"`. -/
theorem xor_cipher_roundtrip_witness :
    decryptXOR (encryptXOR [72, 0xD835, 0xDC00] [107]) [107]
      = [72, 0xD835, 0xDC00] :=
  xor_cipher_roundtrip [72, 0xD835, 0xDC00] [107]
    (by decide) (by decide) (by decide) (by decide)

end SecureStorage
